import Mathlib

/-
Verification development for the pulse-overlay repository.

The definitions below are a shallow embedding of the JavaScript sources:
  * src/extension/shared/state.js      (PulseState.getState, storage.local)
  * src/extension/overlay/graph.js     (PulseGraph: addPoint, constructor)
  * the overlay content script          (PulseOverlay.shouldShow, updateDisplay,
                                         the heart-rate subscription handler)
  * src/extension/background.js        (the connection manager: connect,
                                         scheduleReconnect, disconnect, the
                                         WebSocket handlers, the runtime-message
                                         listener, the settings-change handler
                                         and the keep-alive alarm handler)

JavaScript numbers that hold bpm values and millisecond timestamps are modelled
as Int (or Nat for clock values that only move forward); storage values are
modelled by an explicit JS-value type so that JavaScript truthiness (the
`x || default` idiom in state.js and `timestamp || now` in graph.js) is
represented faithfully.  Each event handler of the background service worker is
modelled as one atomic step of a transition function; this matches the source,
whose in-flight guard in connect() is evaluated and set before the first await.
-/

set_option maxHeartbeats 1000000

/-! ## JavaScript values and the local storage area (state.js / background.js) -/

/-- A JavaScript value as stored in chrome.storage.local: absent (undefined),
null, a string, or a number (bpm values are numbers; modelled as Int). -/
inductive JVal
  | undef
  | nullv
  | str (s : String)
  | int (n : Int)
deriving DecidableEq

/-- JavaScript truthiness for the values above: undefined, null, the empty
string and 0 are falsy. -/
def JVal.truthy : JVal → Bool
  | JVal.undef => false
  | JVal.nullv => false
  | JVal.str s => !(s == "")
  | JVal.int n => !(n == 0)

/-- The JavaScript `v || d` defaulting idiom used throughout state.js. -/
def jsOr (v d : JVal) : JVal := if v.truthy then v else d

/-- The three chrome.storage.local keys the background worker writes and
state.js reads: connectionState, connectedDevice, currentBpm. -/
structure LocalStore where
  connectionState : JVal
  connectedDevice : JVal
  currentBpm : JVal
deriving DecidableEq

/-- Storage before anything has been written: all keys absent. -/
def emptyLocal : LocalStore :=
  { connectionState := JVal.undef, connectedDevice := JVal.undef, currentBpm := JVal.undef }

/-- Device argument conversion: setConnectionState's default parameter makes
an absent device null, and null is what gets stored. -/
def devToJVal : Option String → JVal
  | some d => JVal.str d
  | none => JVal.nullv

/-- The storage write performed by setConnectionState in background.js:
`chrome.storage.local.set with connectionState and connectedDevice`. -/
def writeConnStore (st : String) (dev : Option String) (ls : LocalStore) : LocalStore :=
  { ls with connectionState := JVal.str st, connectedDevice := devToJVal dev }

/-- The storage write performed by the bpm branch of ws.onmessage in
background.js: `chrome.storage.local.set with currentBpm`. -/
def writeBpmStore (b : Int) (ls : LocalStore) : LocalStore :=
  { ls with currentBpm := JVal.int b }

/-- The record PulseState.getState returns. -/
structure SharedStateRead where
  connectionState : JVal
  connectedDevice : JVal
  currentBpm : JVal
deriving DecidableEq

/-- PulseState.getState from state.js: reads the three keys and applies the
`|| default` fallbacks (phase falls back to 'disconnected', device and bpm
fall back to null). -/
def PulseState.getState (ls : LocalStore) : SharedStateRead :=
  { connectionState := jsOr ls.connectionState (JVal.str "disconnected")
    connectedDevice := jsOr ls.connectedDevice JVal.nullv
    currentBpm := jsOr ls.currentBpm JVal.nullv }

/-! ## The rolling-window graph (graph.js) -/

/-- One buffered sample: `points.push with bpm and timestamp` in addPoint. -/
structure GPoint where
  bpm : Int
  timestamp : Int
deriving DecidableEq

/-- The PulseGraph component state: duration (seconds), the point buffer and
the current vertical axis bounds. -/
structure PulseGraph where
  duration : Nat
  points : List GPoint
  minBpm : Int
  maxBpm : Int
deriving DecidableEq

/-- The PulseGraph constructor: empty buffer, minBpm 40, maxBpm 200. -/
def graphInit (duration : Nat) : PulseGraph :=
  { duration := duration, points := [], minBpm := 40, maxBpm := 200 }

/-- Per-value clamp addPoint applies before recomputing the axis bounds:
`Math.max 40 (Math.min 220 p.bpm)`. -/
def clampBpm (b : Int) : Int := max 40 (min 220 b)

/-- The `timestamp || now` defaulting in addPoint: an absent or zero timestamp
argument is replaced by the current time. -/
def resolveTs : Option Int → Int → Int
  | some t, now => if t = 0 then now else t
  | none, now => now

/-- The bounds-update half of addPoint: with a nonempty retained buffer the new
bounds are `max 40 (min - 10)` and `min 220 (max + 10)` over the clamped bpm
values (Math.min / Math.max over the spread list are folds over the list); with
an empty buffer the bounds are left unchanged. -/
def PulseGraph.updateBounds (g : PulseGraph) (pts : List GPoint) : PulseGraph :=
  match pts with
  | [] => { g with points := [] }
  | q :: rest =>
      { g with
        points := q :: rest
        minBpm := max 40 ((rest.map fun p => clampBpm p.bpm).foldl min (clampBpm q.bpm) - 10)
        maxBpm := min 220 ((rest.map fun p => clampBpm p.bpm).foldl max (clampBpm q.bpm) + 10) }

/-- PulseGraph.addPoint: push the new point (with `timestamp || now`), evict
every point with `timestamp ≤ now - duration * 1000`, then recompute the axis
bounds from the retained points. -/
def PulseGraph.addPoint (g : PulseGraph) (bpm : Int) (timestamp : Option Int) (now : Int) :
    PulseGraph :=
  g.updateBounds
    ((g.points ++ [({ bpm := bpm, timestamp := resolveTs timestamp now } : GPoint)]).filter
      (fun p => now - (g.duration : Int) * 1000 < p.timestamp))

/-- Fold a list of (bpm, timestamp, now) inserts into a graph. -/
def applyInserts (g : PulseGraph) (ops : List (Int × Option Int × Int)) : PulseGraph :=
  ops.foldl (fun g o => g.addPoint o.1 o.2.1 o.2.2) g

/-- Minimum of a list as `Math.min(...xs)` computes it (head seeded fold);
defined to state the spec's bounds formula. -/
def listMin : List Int → Int
  | [] => 0
  | x :: xs => xs.foldl min x

/-- Maximum of a list as `Math.max(...xs)` computes it. -/
def listMax : List Int → Int
  | [] => 0
  | x :: xs => xs.foldl max x

/-- Modelled from the spec's words for comparison: "each further clamped to
the interval 40 to 220". -/
def specAxisClamp (x : Int) : Int := max 40 (min 220 x)

/-- The axis-bounds sanity predicate of the claims: both bounds lie in the
interval 40 to 220. -/
def boundsOk (g : PulseGraph) : Prop :=
  40 ≤ g.minBpm ∧ g.minBpm ≤ 220 ∧ 40 ≤ g.maxBpm ∧ g.maxBpm ≤ 220

instance (g : PulseGraph) : Decidable (boundsOk g) := by
  unfold boundsOk; infer_instance

/-! ## The overlay content script (PulseOverlay) -/

/-- The two settings fields PulseOverlay.shouldShow consults.  siteOverrides
is the origin-keyed mapping; a missing key is `none`. -/
structure OverlaySettings where
  enabled : Bool
  siteOverrides : String → Option Bool

/-- PulseOverlay.shouldShow: explicit true shows, explicit false hides,
otherwise follow the global enabled flag. -/
def shouldShow (settings : OverlaySettings) (hostname : String) : Bool :=
  match settings.siteOverrides hostname with
  | some true => true
  | some false => false
  | none => settings.enabled

/-- The overlay fields PulseOverlay.updateDisplay reads: the cached bpm and
the connection phase. -/
structure OverlayView where
  currentBpm : Option Int
  connectionState : String
deriving DecidableEq

/-- PulseOverlay.updateDisplay's value decision: the bpm text shows the cached
value only when a value is cached and the phase is 'connected'; otherwise it
shows the '--' placeholder (modelled as none). -/
def updateDisplay (o : OverlayView) : Option Int :=
  if o.currentBpm ≠ none ∧ o.connectionState = "connected" then o.currentBpm else none

/-- The onHeartRate subscription handler in the overlay: caches the sample's
bpm (updateDisplay is then called on the new state). -/
def onHeartRateSample (o : OverlayView) (bpm : Int) : OverlayView :=
  { o with currentBpm := some bpm }

/-! ## The background service worker (background.js)

Each handler of the worker is modelled as one atomic transition.  Sockets are
kept in a list indexed by creation order; the module-global `ws` variable is an
optional index into that list.  The socket constructed by `new WebSocket` may
throw (invalid URL) — the event carries a `ctorOk` flag selecting the try or
the catch branch.  `shouldBeConnected()` reads chrome.storage.sync; its result
is supplied by the event (`sc`), since settings are written by the UI outside
this model.  Every event carries `now`, the value `Date.now()` returns while
the handler runs.  Side effects (socket construction, timer arming, broadcasts,
console output) are collected in a list tagged with `now`. -/

/-- WebSocket readyState. -/
inductive SockSt
  | connecting
  | opened
  | closing
  | closed
deriving DecidableEq

/-- A message broadcast to the tabs (the Broadcast Bus payloads). -/
inductive BMsg
  | statusB (st : String) (device : Option String)
  | hrB (bpm : Int) (timestamp : Option Int)
  | settingsChangedB
deriving DecidableEq

/-- Observable side effects of the worker. -/
inductive Eff
  | socketNew (i : Nat)
  | timerSet (delay : Nat)
  | bcast (m : BMsg)
  | logWarn
  | logInfo
deriving DecidableEq

/-- Effects tagged with the Date.now() at which they were emitted. -/
abbrev Effs := List (Nat × Eff)

/-- An inbound WebSocket message as seen by ws.onmessage: text that fails
JSON.parse, the JSON text `null` (parses, then the property access throws), or
a JSON object with the fields the handler looks at (`none` = field absent;
per the protocol a present status or device is a string, a present bpm or
timestamp a number). -/
inductive InMsg
  | badJson
  | jnull
  | obj (status : Option String) (device : Option String)
        (bpm : Option Int) (timestamp : Option Int)
deriving DecidableEq

/-- The `if (data.status)` truthiness test: absent or empty string is falsy. -/
def statusTruthy : Option String → Bool
  | some st => !(st == "")
  | none => false

/-- The module-global state of background.js. -/
structure BG where
  sockets : List SockSt
  ws : Option Nat
  isConnecting : Bool
  connectionState : String
  currentBpm : JVal
  reconnectDelay : Nat
  reconnectTimer : Bool
  reconnectStartTime : Option Nat
  autoReconnectEnabled : Bool
  localStore : LocalStore
deriving DecidableEq

/-- The initial values of the globals at worker startup. -/
def bgInit : BG :=
  { sockets := [], ws := none, isConnecting := false,
    connectionState := "disconnected", currentBpm := JVal.nullv,
    reconnectDelay := 1000, reconnectTimer := false, reconnectStartTime := none,
    autoReconnectEnabled := true, localStore := emptyLocal }

def RECONNECT_MAX_DELAY : Nat := 30000

def RECONNECT_TIMEOUT : Nat := 60000

/-- readyState of the socket the global `ws` currently refers to. -/
def BG.wsReady (s : BG) : Option SockSt :=
  s.ws.bind fun i => s.sockets.get? i

/-- The second half of connect()'s guard:
`ws && (ws.readyState === OPEN || ws.readyState === CONNECTING)`. -/
def wsLiveGuard (s : BG) : Bool :=
  match s.wsReady with
  | some SockSt.opened => true
  | some SockSt.connecting => true
  | _ => false

/-- setConnectionState: set the global phase, write phase and device to
chrome.storage.local, broadcast a status message. -/
def setConnectionStateM (st : String) (dev : Option String) (now : Nat) (s : BG) : BG × Effs :=
  ({ s with connectionState := st, localStore := writeConnStore st dev s.localStore },
   [(now, Eff.bcast (BMsg.statusB st dev))])

/-- The delay update the reconnect timer callback applies after a connect
attempt: double, capped at RECONNECT_MAX_DELAY. -/
def nextReconnectDelay (d : Nat) : Nat := min (d * 2) RECONNECT_MAX_DELAY

/-- scheduleReconnect: no-op when auto-reconnect is disabled; start the
failure-episode clock on the first failure; once more than RECONNECT_TIMEOUT ms
have elapsed since the episode started, disable auto-reconnect (console.log)
instead of scheduling; otherwise (re)arm the timer with the current delay. -/
def scheduleReconnectM (now : Nat) (s : BG) : BG × Effs :=
  if s.autoReconnectEnabled = false then (s, [])
  else
    let s1 := if s.reconnectStartTime = none then { s with reconnectStartTime := some now } else s
    if RECONNECT_TIMEOUT < now - s1.reconnectStartTime.getD 0 then
      ({ s1 with autoReconnectEnabled := false, reconnectStartTime := none },
       [(now, Eff.logInfo)])
    else
      ({ s1 with reconnectTimer := true }, [(now, Eff.timerSet s1.reconnectDelay)])

/-- Effect of `ws.close()` on the state of the socket it is called on:
an open or connecting socket starts closing; otherwise nothing changes. -/
def closeCurrent : SockSt → SockSt
  | SockSt.connecting => SockSt.closing
  | SockSt.opened => SockSt.closing
  | st => st

/-- disconnect(): cancel the pending timer, close and drop the current socket,
clear the in-flight flag, set the phase global to 'disconnected' (directly, no
storage write or broadcast) and forget the cached bpm. -/
def disconnectM (s : BG) : BG :=
  let s2 :=
    match s.ws with
    | some i =>
        { s with sockets := s.sockets.set i (closeCurrent (s.sockets.getD i SockSt.closed)),
                 ws := none }
    | none => s
  { s2 with reconnectTimer := false, isConnecting := false,
            connectionState := "disconnected", currentBpm := JVal.nullv }

/-- connect(): the synchronous in-flight guard (checked and set before any
await), the should-connect check, phase to 'connecting', then `new WebSocket`
— on success the new socket is appended and `ws` points at it; if the
constructor throws, the catch branch resets the flag, reports 'disconnected'
and schedules a reconnect. -/
def connectM (sc : Bool) (ctorOk : Bool) (now : Nat) (s : BG) : BG × Effs :=
  if s.isConnecting = true ∨ wsLiveGuard s = true then (s, [])
  else
    let s1 := { s with isConnecting := true }
    if sc = false then ({ s1 with isConnecting := false }, [])
    else
      let r1 := setConnectionStateM "connecting" none now s1
      if ctorOk then
        ({ r1.1 with sockets := r1.1.sockets ++ [SockSt.connecting],
                     ws := some r1.1.sockets.length },
         r1.2 ++ [(now, Eff.socketNew r1.1.sockets.length)])
      else
        let s2 := { r1.1 with isConnecting := false }
        let r2 := setConnectionStateM "disconnected" none now s2
        let r3 := scheduleReconnectM now r2.1
        (r3.1, r1.2 ++ r2.2 ++ r3.2)

/-- ws.onopen: clear the in-flight flag, reset the backoff delay and the
failure-episode clock, re-enable auto-reconnect, report 'connected'. -/
def onOpenBody (now : Nat) (s : BG) : BG × Effs :=
  setConnectionStateM "connected" none now
    { s with isConnecting := false, reconnectDelay := 1000,
             reconnectStartTime := none, autoReconnectEnabled := true }

/-- ws.onclose: null the global `ws` (whatever it refers to), clear the
in-flight flag, report 'disconnected', schedule a reconnect. -/
def onCloseBody (now : Nat) (s : BG) : BG × Effs :=
  let r1 := setConnectionStateM "disconnected" none now
    { s with ws := none, isConnecting := false }
  let r2 := scheduleReconnectM now r1.1
  (r2.1, r1.2 ++ r2.2)

/-- ws.onmessage: JSON.parse inside try/catch; a truthy status field routes to
setConnectionState; otherwise a present bpm field caches the value, writes it
to storage and broadcasts an hr message; otherwise the message is ignored.
A parse failure (or the property access on parsed null) lands in the catch
branch, which only logs a console.warn. -/
def onMessageBody (m : InMsg) (now : Nat) (s : BG) : BG × Effs :=
  match m with
  | InMsg.badJson => (s, [(now, Eff.logWarn)])
  | InMsg.jnull => (s, [(now, Eff.logWarn)])
  | InMsg.obj status device bpm ts =>
      if statusTruthy status then
        setConnectionStateM (status.getD "") device now s
      else if bpm ≠ none then
        let b := bpm.getD 0
        ({ s with currentBpm := JVal.int b, localStore := writeBpmStore b s.localStore },
         [(now, Eff.bcast (BMsg.hrB b ts))])
      else (s, [])

/-- The events that drive the worker.  `sc` is the value shouldBeConnected()
returns during the handler, `ctorOk` whether `new WebSocket` succeeds, `now`
the clock, and `i` the index of the socket whose handler fires. -/
inductive Ev
  | connectCall (sc ctorOk : Bool) (now : Nat)
  | wsOpen (i : Nat) (now : Nat)
  | wsClose (i : Nat) (now : Nat)
  | wsError (i : Nat) (now : Nat)
  | msgArrive (m : InMsg) (now : Nat)
  | timerFire (sc ctorOk : Bool) (now : Nat)
  | alarmFire (sc ctorOk : Bool) (now : Nat)
  | manualReconnect (sc ctorOk : Bool) (now : Nat)
  | settingsChanged (sc ctorOk : Bool) (now : Nat)
deriving DecidableEq

/-- One atomic handler execution. A socket event only fires for a socket in a
state that can produce it (open fires for a connecting socket, close for any
socket not yet closed — including one detached from the global `ws`). -/
def bgStep (s : BG) (e : Ev) : BG × Effs :=
  match e with
  | Ev.connectCall sc ok now => connectM sc ok now s
  | Ev.wsOpen i now =>
      if s.sockets.get? i = some SockSt.connecting then
        onOpenBody now { s with sockets := s.sockets.set i SockSt.opened }
      else (s, [])
  | Ev.wsClose i now =>
      match s.sockets.get? i with
      | none => (s, [])
      | some SockSt.closed => (s, [])
      | some _ => onCloseBody now { s with sockets := s.sockets.set i SockSt.closed }
  | Ev.wsError _ now => (s, [(now, Eff.logWarn)])
  | Ev.msgArrive m now => onMessageBody m now s
  | Ev.timerFire sc ok now =>
      if s.reconnectTimer = true then
        let s1 := { s with reconnectTimer := false }
        if sc = true ∧ s1.autoReconnectEnabled = true then
          let r := connectM sc ok now s1
          ({ r.1 with reconnectDelay := nextReconnectDelay r.1.reconnectDelay }, r.2)
        else (s1, [])
      else (s, [])
  | Ev.alarmFire sc ok now =>
      if s.autoReconnectEnabled = true ∧ s.wsReady ≠ some SockSt.opened then
        connectM sc ok now s
      else (s, [])
  | Ev.manualReconnect sc ok now =>
      connectM sc ok now
        { disconnectM s with reconnectDelay := 1000, reconnectStartTime := none,
                             autoReconnectEnabled := true }
  | Ev.settingsChanged sc ok now =>
      if sc = false ∧ s.connectionState ≠ "disconnected" then
        (disconnectM s, [(now, Eff.bcast BMsg.settingsChangedB)])
      else if sc = true ∧ s.connectionState = "disconnected" then
        connectM sc ok now
          { s with reconnectDelay := 1000, reconnectStartTime := none,
                   autoReconnectEnabled := true }
      else (s, [(now, Eff.bcast BMsg.settingsChangedB)])

/-- Run a sequence of events, accumulating effects. -/
def bgRun (s : BG) : List Ev → BG × Effs
  | [] => (s, [])
  | e :: tr =>
      let r := bgStep s e
      let r2 := bgRun r.1 tr
      (r2.1, r.2 ++ r2.2)

/-- Number of sockets currently open or in flight (connecting). -/
def liveCount (s : BG) : Nat :=
  (s.sockets.filter fun st => st = SockSt.connecting ∨ st = SockSt.opened).length

/-- Number of socket constructions among the recorded effects. -/
def socketNewCount (l : Effs) : Nat :=
  (l.filter fun te => match te.2 with | Eff.socketNew _ => true | _ => false).length

/-- The event kinds that can occur without any user action: socket callbacks,
inbound messages, the backoff timer and the liveness alarm. -/
def autoOnlyEv : Ev → Bool
  | Ev.wsOpen _ _ => true
  | Ev.wsClose _ _ => true
  | Ev.wsError _ _ => true
  | Ev.msgArrive _ _ => true
  | Ev.timerFire _ _ _ => true
  | Ev.alarmFire _ _ _ => true
  | _ => false

/-- Whether a trace contains a manual reconnect request. -/
def hasManualReconnect : List Ev → Bool
  | [] => false
  | Ev.manualReconnect _ _ _ :: _ => true
  | _ :: tr => hasManualReconnect tr

/-- A malformed inbound message in the sense of the spec: not valid JSON (or
not an object), or a JSON object containing neither a bpm nor a status field. -/
def malformedMsg : InMsg → Prop
  | InMsg.badJson => True
  | InMsg.jnull => True
  | InMsg.obj status _ bpm _ => status = none ∧ bpm = none

instance : DecidablePred malformedMsg := by
  intro m; unfold malformedMsg; cases m <;> infer_instance

/-- Whether handling the message goes through the catch branch (JSON.parse
throws, or the property access on a non-object throws). -/
def parseFails : InMsg → Bool
  | InMsg.badJson => true
  | InMsg.jnull => true
  | InMsg.obj _ _ _ _ => false

/-! ## Helper lemmas for the graph -/

theorem clampBpm_ge (b : Int) : 40 ≤ clampBpm b := by
  unfold clampBpm; omega

theorem clampBpm_le (b : Int) : clampBpm b ≤ 220 := by
  unfold clampBpm; omega

theorem foldl_min_le_init (xs : List Int) : ∀ x : Int, xs.foldl min x ≤ x := by
  induction xs with
  | nil => intro x; simp
  | cons y ys ih =>
      intro x
      simpa using le_trans (ih (min x y)) (min_le_left x y)

theorem le_foldl_min (c : Int) (xs : List Int) :
    ∀ x : Int, c ≤ x → (∀ y ∈ xs, c ≤ y) → c ≤ xs.foldl min x := by
  induction xs with
  | nil => intro x hx _; simpa using hx
  | cons y ys ih =>
      intro x hx hall
      simp only [List.foldl_cons]
      exact ih (min x y) (le_min hx (hall y (by simp))) (fun z hz => hall z (by simp [hz]))

theorem init_le_foldl_max (xs : List Int) : ∀ x : Int, x ≤ xs.foldl max x := by
  induction xs with
  | nil => intro x; simp
  | cons y ys ih =>
      intro x
      simpa using le_trans (le_max_left x y) (ih (max x y))

theorem foldl_max_le (c : Int) (xs : List Int) :
    ∀ x : Int, x ≤ c → (∀ y ∈ xs, y ≤ c) → xs.foldl max x ≤ c := by
  induction xs with
  | nil => intro x hx _; simpa using hx
  | cons y ys ih =>
      intro x hx hall
      simp only [List.foldl_cons]
      exact ih (max x y) (max_le hx (hall y (by simp))) (fun z hz => hall z (by simp [hz]))

theorem updateBounds_points (g : PulseGraph) (pts : List GPoint) :
    (g.updateBounds pts).points = pts := by
  unfold PulseGraph.updateBounds
  cases pts <;> rfl

theorem addPoint_points (g : PulseGraph) (b : Int) (t : Option Int) (n : Int) :
    (g.addPoint b t n).points
      = (g.points ++ [({ bpm := b, timestamp := resolveTs t n } : GPoint)]).filter
          (fun p => n - (g.duration : Int) * 1000 < p.timestamp) := by
  unfold PulseGraph.addPoint
  exact updateBounds_points _ _

theorem updateBounds_boundsOk (g : PulseGraph) (pts : List GPoint) (h : boundsOk g) :
    boundsOk (g.updateBounds pts) := by
  unfold PulseGraph.updateBounds
  cases pts with
  | nil => exact h
  | cons q rest =>
      have hq_ge := clampBpm_ge q.bpm
      have hq_le := clampBpm_le q.bpm
      have hmin_le : (rest.map fun p => clampBpm p.bpm).foldl min (clampBpm q.bpm)
          ≤ clampBpm q.bpm := foldl_min_le_init _ _
      have hmin_ge : (40 : Int) ≤ (rest.map fun p => clampBpm p.bpm).foldl min (clampBpm q.bpm) := by
        refine le_foldl_min 40 _ _ hq_ge ?_
        intro y hy
        rcases List.mem_map.mp hy with ⟨p, _, rfl⟩
        exact clampBpm_ge p.bpm
      have hmax_ge : clampBpm q.bpm
          ≤ (rest.map fun p => clampBpm p.bpm).foldl max (clampBpm q.bpm) := init_le_foldl_max _ _
      have hmax_le : (rest.map fun p => clampBpm p.bpm).foldl max (clampBpm q.bpm) ≤ 220 := by
        refine foldl_max_le 220 _ _ hq_le ?_
        intro y hy
        rcases List.mem_map.mp hy with ⟨p, _, rfl⟩
        exact clampBpm_le p.bpm
      unfold boundsOk at h ⊢
      simp only
      omega

theorem addPoint_boundsOk (g : PulseGraph) (b : Int) (t : Option Int) (n : Int)
    (h : boundsOk g) : boundsOk (g.addPoint b t n) :=
  updateBounds_boundsOk _ _ h

theorem applyInserts_boundsOk (ops : List (Int × Option Int × Int)) :
    ∀ g : PulseGraph, boundsOk g → boundsOk (applyInserts g ops) := by
  induction ops with
  | nil => intro g h; exact h
  | cons o rest ih =>
      intro g h
      exact ih _ (addPoint_boundsOk _ _ _ _ h)

theorem updateBounds_formula (g : PulseGraph) (pts : List GPoint) (h : pts ≠ []) :
    (g.updateBounds pts).minBpm = specAxisClamp (listMin (pts.map fun p => clampBpm p.bpm) - 10) ∧
    (g.updateBounds pts).maxBpm = specAxisClamp (listMax (pts.map fun p => clampBpm p.bpm) + 10) := by
  cases pts with
  | nil => exact absurd rfl h
  | cons q rest =>
      have hmn_le : (rest.map fun p => clampBpm p.bpm).foldl min (clampBpm q.bpm) ≤ 220 :=
        le_trans (foldl_min_le_init _ _) (clampBpm_le q.bpm)
      have hmx_ge : (40 : Int) ≤ (rest.map fun p => clampBpm p.bpm).foldl max (clampBpm q.bpm) :=
        le_trans (clampBpm_ge q.bpm) (init_le_foldl_max _ _)
      unfold PulseGraph.updateBounds specAxisClamp listMin listMax
      simp only [List.map_cons]
      constructor <;> omega

theorem addPoint_bounds_formula (g : PulseGraph) (b : Int) (t : Option Int) (n : Int)
    (h : (g.addPoint b t n).points ≠ []) :
    (g.addPoint b t n).minBpm
        = specAxisClamp (listMin (((g.addPoint b t n).points).map fun p => clampBpm p.bpm) - 10) ∧
    (g.addPoint b t n).maxBpm
        = specAxisClamp (listMax (((g.addPoint b t n).points).map fun p => clampBpm p.bpm) + 10) := by
  unfold PulseGraph.addPoint at h ⊢
  rw [updateBounds_points] at h ⊢
  exact updateBounds_formula _ _ h

/-! ## Claim C4: visibility resolution -/

/-- Settings of the first spec example: globally disabled, a.com forced on. -/
def c4SettingsA : OverlaySettings :=
  { enabled := false, siteOverrides := fun h => if h = "a.com" then some true else none }

/-- Settings of the second spec example: globally enabled, a.com forced off. -/
def c4SettingsB : OverlaySettings :=
  { enabled := true, siteOverrides := fun h => if h = "a.com" then some false else none }

/-- C4: the visibility decision is: explicit true override shows, explicit
false override hides, absent override follows globallyEnabled; in particular
the two example settings resolve as the spec states. -/
theorem visibility_resolution :
    (∀ (s : OverlaySettings) (o : String), s.siteOverrides o = some true → shouldShow s o = true) ∧
    (∀ (s : OverlaySettings) (o : String), s.siteOverrides o = some false → shouldShow s o = false) ∧
    (∀ (s : OverlaySettings) (o : String), s.siteOverrides o = none → shouldShow s o = s.enabled) ∧
    shouldShow c4SettingsA "a.com" = true ∧ shouldShow c4SettingsA "b.com" = false ∧
    shouldShow c4SettingsB "a.com" = false ∧ shouldShow c4SettingsB "b.com" = true := by
  refine ⟨?_, ?_, ?_, ?_, ?_, ?_, ?_⟩
  · intro s o h; simp [shouldShow, h]
  · intro s o h; simp [shouldShow, h]
  · intro s o h; simp [shouldShow, h]
  · rfl
  · rfl
  · rfl
  · rfl

/-- Witness for C4: the first branch applied to the example settings. -/
theorem visibility_resolution_witness : shouldShow c4SettingsA "a.com" = true :=
  visibility_resolution.1 c4SettingsA "a.com" rfl

/-! ## Claim C7: placeholder whenever the phase is not connected -/

/-- C7: with any phase other than 'connected' the display shows the
placeholder even if a bpm is cached; a sample arriving while connected is
displayed, the same sample arriving while disconnected is not. -/
theorem stale_value_placeholder :
    (∀ o : OverlayView, o.connectionState ≠ "connected" → updateDisplay o = none) ∧
    (∀ (o : OverlayView) (b : Int), o.connectionState = "connected" →
        updateDisplay (onHeartRateSample o b) = some b) ∧
    (∀ (o : OverlayView) (b : Int), o.connectionState = "disconnected" →
        updateDisplay (onHeartRateSample o b) = none) := by
  refine ⟨?_, ?_, ?_⟩
  · intro o h
    unfold updateDisplay
    rw [if_neg]
    rintro ⟨-, h2⟩
    exact h h2
  · intro o b h
    unfold updateDisplay onHeartRateSample
    simp [h]
  · intro o b h
    unfold updateDisplay onHeartRateSample
    simp [h]

/-- Witness for C7: a sample of 72 cached while disconnected leaves the
placeholder, and the same cache while connected shows 72. -/
theorem stale_value_placeholder_witness :
    updateDisplay (onHeartRateSample ⟨some 72, "disconnected"⟩ 72) = none ∧
    updateDisplay (onHeartRateSample ⟨some 72, "connected"⟩ 72) = some 72 :=
  ⟨stale_value_placeholder.2.2 ⟨some 72, "disconnected"⟩ 72 rfl,
   stale_value_placeholder.2.1 ⟨some 72, "connected"⟩ 72 rfl⟩

/-! ## Claim C8: shared state round-trip -/

/-- C8 counterexample: after the worker writes a bpm of 0, getState returns
null for the value (the `|| null` fallback triggers on 0), not the written 0. -/
theorem shared_state_zero_bpm_counterexample :
    (PulseState.getState (writeBpmStore 0 emptyLocal)).currentBpm = JVal.nullv ∧
    JVal.nullv ≠ JVal.int 0 := by decide

/-- C8 (amended): getState returns the power-on defaults when nothing was
written, and otherwise returns the last written value per field as long as
that value is truthy (nonempty phase string, nonempty device, nonzero bpm);
a written bpm of 0 reads back as the default null. -/
theorem shared_state_read_amended :
    PulseState.getState emptyLocal
        = { connectionState := JVal.str "disconnected", connectedDevice := JVal.nullv,
            currentBpm := JVal.nullv } ∧
    (∀ (ls : LocalStore) (st : String) (dev : Option String) (b : Int),
        st ≠ "" → (∀ d, dev = some d → d ≠ "") → b ≠ 0 →
        PulseState.getState (writeBpmStore b (writeConnStore st dev ls))
          = { connectionState := JVal.str st, connectedDevice := devToJVal dev,
              currentBpm := JVal.int b }) ∧
    (∀ ls : LocalStore, (PulseState.getState (writeBpmStore 0 ls)).currentBpm = JVal.nullv) := by
  refine ⟨by decide, ?_, ?_⟩
  · intro ls st dev b hst hdev hb
    have h1 : (st == "") = false := beq_eq_false_iff_ne.mpr hst
    have h2 : (b == 0) = false := beq_eq_false_iff_ne.mpr hb
    cases dev with
    | none =>
        simp [PulseState.getState, writeBpmStore, writeConnStore, jsOr, JVal.truthy,
              devToJVal, h1, h2]
    | some d =>
        have h3 : (d == "") = false := beq_eq_false_iff_ne.mpr (hdev d rfl)
        simp [PulseState.getState, writeBpmStore, writeConnStore, jsOr, JVal.truthy,
              devToJVal, h1, h2, h3]
  · intro ls
    simp [PulseState.getState, writeBpmStore, jsOr, JVal.truthy]

/-- Witness for C8 (amended): a concrete write of phase, device and bpm 72
reads back unchanged. -/
theorem shared_state_read_amended_witness :
    PulseState.getState (writeBpmStore 72 (writeConnStore "connected" (some "Polar") emptyLocal))
      = { connectionState := JVal.str "connected", connectedDevice := JVal.str "Polar",
          currentBpm := JVal.int 72 } :=
  shared_state_read_amended.2.1 emptyLocal "connected" (some "Polar") 72 (by decide)
    (by intro d hd; injection hd with h; subst h; decide) (by decide)

/-! ## Claim C5: rolling-window eviction invariant -/

/-- The spec example inserts: bpm 72 at t = 0, 10, ..., 100 seconds, each
observed at its own insertion time. -/
def c5Inserts : List (Int × Option Int × Int) :=
  [(72, some 0, 0), (72, some 10000, 10000), (72, some 20000, 20000),
   (72, some 30000, 30000), (72, some 40000, 40000), (72, some 50000, 50000),
   (72, some 60000, 60000), (72, some 70000, 70000), (72, some 80000, 80000),
   (72, some 90000, 90000), (72, some 100000, 100000)]

/-- The points the spec example is expected to retain: timestamps strictly
after 40 seconds. -/
def c5Expected : List GPoint :=
  [⟨72, 50000⟩, ⟨72, 60000⟩, ⟨72, 70000⟩, ⟨72, 80000⟩, ⟨72, 90000⟩, ⟨72, 100000⟩]

/-- C5: after every insert, every retained point has
`timestamp > now - windowSeconds * 1000`; the spec's 0..100-second example with
a 60-second window observed at 100 seconds retains exactly the points after
40 seconds. -/
theorem rolling_window_invariant :
    (∀ (g : PulseGraph) (b : Int) (t : Option Int) (n : Int),
        ∀ p ∈ (g.addPoint b t n).points, n - (g.duration : Int) * 1000 < p.timestamp) ∧
    (applyInserts (graphInit 60) c5Inserts).points = c5Expected := by
  constructor
  · intro g b t n p hp
    rw [addPoint_points] at hp
    simp only [List.mem_filter, decide_eq_true_eq] at hp
    exact hp.2
  · decide

/-- Witness for C5: the retained points of a concrete insert all beat the
cutoff. -/
theorem rolling_window_invariant_witness :
    ∀ p ∈ ((graphInit 60).addPoint 72 (some 100) 50).points,
      50 - ((graphInit 60).duration : Int) * 1000 < p.timestamp :=
  rolling_window_invariant.1 (graphInit 60) 72 (some 100) 50

/-! ## Claim C6: axis bounds stay inside the interval 40 to 220 -/

/-- The spec's first bounds example: a single insert of 9999. -/
def c6Ex1 : PulseGraph := (graphInit 60).addPoint 9999 (some 1000) 1000

/-- The spec's second bounds example: a single insert of -50. -/
def c6Ex2 : PulseGraph := (graphInit 60).addPoint (-50) (some 1000) 1000

/-- C6: for every insert sequence the axis bounds stay inside the interval
40 to 220; on each insert with a nonempty retained buffer the bounds equal
min - 10 and max + 10 of the clamped retained values, each clamped again to
the interval; value 9999 produces the 220-based upper bound, value -50 the
40-based lower bound. -/
theorem graph_bounds_invariant :
    (∀ (d : Nat) (ops : List (Int × Option Int × Int)),
        boundsOk (applyInserts (graphInit d) ops)) ∧
    (∀ (g : PulseGraph) (b : Int) (t : Option Int) (n : Int),
        (g.addPoint b t n).points ≠ [] →
        (g.addPoint b t n).minBpm
            = specAxisClamp (listMin (((g.addPoint b t n).points).map fun p => clampBpm p.bpm) - 10) ∧
        (g.addPoint b t n).maxBpm
            = specAxisClamp (listMax (((g.addPoint b t n).points).map fun p => clampBpm p.bpm) + 10)) ∧
    c6Ex1.maxBpm = 220 ∧ c6Ex1.minBpm = 210 ∧ c6Ex2.minBpm = 40 ∧ c6Ex2.maxBpm = 50 := by
  refine ⟨?_, addPoint_bounds_formula, by decide, by decide, by decide, by decide⟩
  intro d ops
  refine applyInserts_boundsOk ops _ ?_
  unfold boundsOk graphInit
  norm_num

/-- Witness for C6: the bounds formula evaluated at a concrete insert. -/
theorem graph_bounds_invariant_witness :
    c6Ex1.minBpm = specAxisClamp (listMin ((c6Ex1.points).map fun p => clampBpm p.bpm) - 10) ∧
    c6Ex1.maxBpm = specAxisClamp (listMax ((c6Ex1.points).map fun p => clampBpm p.bpm) + 10) :=
  graph_bounds_invariant.2.1 (graphInit 60) 9999 (some 1000) 1000 (by decide)

/-! ## Claim C10: settings change while connected is a pure broadcast -/

/-- C10: with should-connect true and phase 'connected', handleSettingsChange
leaves the whole worker state (socket, backoff delay, failure-episode clock,
auto-reconnect flag) untouched and only broadcasts a settingsChanged event. -/
theorem settings_change_while_connected_frame (s : BG) (ok : Bool) (now : Nat)
    (h : s.connectionState = "connected") :
    bgStep s (Ev.settingsChanged true ok now) = (s, [(now, Eff.bcast BMsg.settingsChangedB)]) := by
  show (if true = false ∧ s.connectionState ≠ "disconnected" then
          (disconnectM s, [(now, Eff.bcast BMsg.settingsChangedB)])
        else if true = true ∧ s.connectionState = "disconnected" then
          connectM true ok now
            { s with reconnectDelay := 1000, reconnectStartTime := none,
                     autoReconnectEnabled := true }
        else (s, [(now, Eff.bcast BMsg.settingsChangedB)]))
      = (s, [(now, Eff.bcast BMsg.settingsChangedB)])
  rw [if_neg, if_neg]
  · rintro ⟨-, h2⟩
    rw [h] at h2
    exact absurd h2 (by decide)
  · rintro ⟨h1, -⟩
    exact Bool.noConfusion h1

/-- A concrete connected worker state: one connect that opened. -/
def connectedBG : BG := (bgRun bgInit [Ev.connectCall true true 0, Ev.wsOpen 0 100]).1

/-- Witness for C10: the frame property at the concrete connected state. -/
theorem settings_change_while_connected_frame_witness :
    bgStep connectedBG (Ev.settingsChanged true true 200)
      = (connectedBG, [(200, Eff.bcast BMsg.settingsChangedB)]) :=
  settings_change_while_connected_frame connectedBG true 200 (by decide)

/-! ## Claim C9: malformed inbound messages -/

/-- C9 counterexample: the well-formed JSON object with neither a bpm nor a
status field is dropped with NO log effect (the catch branch is the only place
that logs), while the claim says every malformed message is logged; the
connection stays open and the state is untouched. -/
theorem malformed_not_logged_counterexample :
    (bgStep connectedBG (Ev.msgArrive (InMsg.obj none none none none) 200)).2 = [] ∧
    (bgStep connectedBG (Ev.msgArrive (InMsg.obj none none none none) 200)).1 = connectedBG ∧
    connectedBG.wsReady = some SockSt.opened := by decide

/-- C9 (amended): a malformed message (invalid JSON, JSON null, or an object
with neither field) leaves the worker state — phase, sockets, cached value —
completely unchanged and emits no broadcast and no close; invalid JSON (or a
non-object) is additionally logged by the catch branch, while an object with
neither field is dropped silently. -/
theorem malformed_message_amended (s : BG) (m : InMsg) (now : Nat) (hm : malformedMsg m) :
    (bgStep s (Ev.msgArrive m now)).1 = s ∧
    (bgStep s (Ev.msgArrive m now)).2
        = (if parseFails m then [(now, Eff.logWarn)] else []) := by
  cases m with
  | badJson => exact ⟨rfl, rfl⟩
  | jnull => exact ⟨rfl, rfl⟩
  | obj status device bpm ts =>
      have hm2 : status = none ∧ bpm = none := hm
      rcases hm2 with ⟨h1, h2⟩
      subst h1
      subst h2
      exact ⟨rfl, rfl⟩

/-- Witness for C9 (amended): invalid JSON at the initial state. -/
theorem malformed_message_amended_witness :
    (bgStep bgInit (Ev.msgArrive InMsg.badJson 5)).1 = bgInit ∧
    (bgStep bgInit (Ev.msgArrive InMsg.badJson 5)).2
        = (if parseFails InMsg.badJson then [(5, Eff.logWarn)] else []) :=
  malformed_message_amended bgInit InMsg.badJson 5 trivial

/-! ## Claim C1: at most one open or in-flight socket -/

/-- A trace of ordinary events after which two sockets are alive at once:
connect and open (socket 0); settings turn the extension off (socket 0 is
closed, its close event still pending); settings turn it back on (socket 1 is
created and opens); socket 0's late close event now fires — its handler nulls
the global `ws`, detaching the still-open socket 1, and schedules a reconnect;
the timer fires and connect's guard sees no in-flight attempt and no socket,
so it creates socket 2 while socket 1 is still open. -/
def c1Trace : List Ev :=
  [Ev.connectCall true true 0, Ev.wsOpen 0 100, Ev.settingsChanged false true 200,
   Ev.settingsChanged true true 300, Ev.wsOpen 1 400, Ev.wsClose 0 500,
   Ev.timerFire true true 1500]

/-- C1: evaluating the worker on the trace above ends with two live sockets —
socket 1 open and socket 2 connecting — although no manual reconnect occurred;
the code violates the at-most-one-socket invariant the claim states. -/
theorem duplicate_live_sockets :
    liveCount (bgRun bgInit c1Trace).1 = 2 ∧
    hasManualReconnect c1Trace = false ∧
    (bgRun bgInit c1Trace).1.sockets
      = [SockSt.closed, SockSt.opened, SockSt.connecting] := by decide

/-! ## Claim C3: the 60-second failure-episode window -/

/-- Failure episode starting at 5000 ms: the backoff chain schedules with
delays 1000, 2000, 4000, 8000, 16000, 30000; after the sixth failure (at
36005 ms, still inside the window) a 30-second timer is pending. -/
def c3preTrace : List Ev :=
  [Ev.connectCall true true 0, Ev.wsClose 0 5000,
   Ev.timerFire true true 6000, Ev.wsClose 1 6001,
   Ev.timerFire true true 8001, Ev.wsClose 2 8002,
   Ev.timerFire true true 12002, Ev.wsClose 3 12003,
   Ev.timerFire true true 20003, Ev.wsClose 4 20004,
   Ev.timerFire true true 36004, Ev.wsClose 5 36005]

/-- C3 counterexample: at 65500 ms — more than 60000 ms after the first
failure of the episode (5000 ms) and with no manual reconnect anywhere — the
keep-alive alarm still initiates an automatic connect attempt (socket 6 is
created), because nothing has yet flipped autoReconnectEnabled: the timeout is
only checked inside scheduleReconnect. -/
theorem auto_reconnect_after_window_counterexample :
    (bgRun bgInit c3preTrace).1.reconnectStartTime = some 5000 ∧
    RECONNECT_TIMEOUT < 65500 - 5000 ∧
    hasManualReconnect c3preTrace = false ∧
    (65500, Eff.socketNew 6)
        ∈ (bgStep (bgRun bgInit c3preTrace).1 (Ev.alarmFire true true 65500)).2 := by decide

/-! ## Helper lemmas for the reconnect machinery -/

theorem scheduleReconnectM_delay (now : Nat) (s : BG) :
    (scheduleReconnectM now s).1.reconnectDelay = s.reconnectDelay := by
  simp only [scheduleReconnectM]
  split_ifs <;> rfl

theorem connectM_delay (sc ok : Bool) (now : Nat) (s : BG) :
    (connectM sc ok now s).1.reconnectDelay = s.reconnectDelay := by
  simp only [connectM, setConnectionStateM]
  split_ifs <;> simp [scheduleReconnectM_delay]

theorem connectM_start_auto (sc : Bool) (now : Nat) (s : BG) :
    (connectM sc true now s).1.reconnectStartTime = s.reconnectStartTime ∧
    (connectM sc true now s).1.autoReconnectEnabled = s.autoReconnectEnabled := by
  simp only [connectM, setConnectionStateM]
  split_ifs <;> exact ⟨rfl, rfl⟩

/-- Manual reconnect resets the backoff delay, the failure-episode clock and
the auto-reconnect flag (socket construction succeeding). -/
theorem manual_reconnect_resets (s : BG) (sc : Bool) (now : Nat) :
    (bgStep s (Ev.manualReconnect sc true now)).1.reconnectDelay = 1000 ∧
    (bgStep s (Ev.manualReconnect sc true now)).1.reconnectStartTime = none ∧
    (bgStep s (Ev.manualReconnect sc true now)).1.autoReconnectEnabled = true := by
  have h1 : bgStep s (Ev.manualReconnect sc true now)
      = connectM sc true now
          { disconnectM s with reconnectDelay := 1000, reconnectStartTime := none,
                               autoReconnectEnabled := true } := rfl
  refine ⟨?_, ?_, ?_⟩
  · rw [h1, connectM_delay]
  · rw [h1, (connectM_start_auto _ _ _).1]
  · rw [h1, (connectM_start_auto _ _ _).2]

/-! ## Claim C2: the backoff delay sequence -/

/-- A worker state with a reconnect timer pending. -/
def timerPendingBG : BG := { bgInit with reconnectTimer := true }

/-- C2: iterating the timer-callback delay update from 1000 yields
min (1000 * 2 ^ n) 30000 — that is 1000, 2000, 4000, 8000, 16000, 30000,
30000, ...; scheduleReconnect arms the timer with the current delay while the
episode window is open; a fired timer doubles the delay (capped); a successful
open and a manual reconnect both reset the delay to 1000. -/
theorem reconnect_backoff_sequence :
    (∀ n : Nat, nextReconnectDelay^[n] 1000 = min (1000 * 2 ^ n) 30000) ∧
    (∀ (s : BG) (now : Nat), s.autoReconnectEnabled = true →
        now - s.reconnectStartTime.getD now ≤ RECONNECT_TIMEOUT →
        (scheduleReconnectM now s).2 = [(now, Eff.timerSet s.reconnectDelay)]) ∧
    (∀ (s : BG) (ok : Bool) (now : Nat), s.reconnectTimer = true →
        s.autoReconnectEnabled = true →
        (bgStep s (Ev.timerFire true ok now)).1.reconnectDelay
          = nextReconnectDelay s.reconnectDelay) ∧
    (∀ (s : BG) (i : Nat) (now : Nat), s.sockets.get? i = some SockSt.connecting →
        (bgStep s (Ev.wsOpen i now)).1.reconnectDelay = 1000) ∧
    (∀ (s : BG) (sc : Bool) (now : Nat),
        (bgStep s (Ev.manualReconnect sc true now)).1.reconnectDelay = 1000) := by
  refine ⟨?_, ?_, ?_, ?_, ?_⟩
  · intro n
    induction n with
    | zero => decide
    | succ k ih =>
        rw [Function.iterate_succ_apply', ih]
        simp only [nextReconnectDelay, RECONNECT_MAX_DELAY, pow_succ]
        have h2 : (1000 : Nat) * (2 ^ k * 2) = 1000 * 2 ^ k * 2 := by ring
        rw [h2]
        generalize (1000 : Nat) * 2 ^ k = m
        omega
  · intro s now h1 h2
    rcases hst : s.reconnectStartTime with _ | t
    · have h3 : ¬ (RECONNECT_TIMEOUT < 0) := by omega
      simp [scheduleReconnectM, h1, hst, Nat.sub_self, h3]
    · rw [hst] at h2
      have h3 : ¬ (RECONNECT_TIMEOUT < now - t) := by
        simp only [Option.getD] at h2
        omega
      simp [scheduleReconnectM, h1, hst, h3]
  · intro s ok now h1 h2
    simp [bgStep, h1, h2, connectM_delay]
  · intro s i now h
    rw [List.get?_eq_getElem?] at h
    simp [bgStep, h, onOpenBody, setConnectionStateM]
  · intro s sc now
    exact (manual_reconnect_resets s sc now).1

/-- Witness for C2: the sixth delay is the 30000 cap; a concrete pending timer
doubles the delay; a manual reconnect resets it. -/
theorem reconnect_backoff_sequence_witness :
    nextReconnectDelay^[5] 1000 = min (1000 * 2 ^ 5) 30000 ∧
    (bgStep timerPendingBG (Ev.timerFire true true 7)).1.reconnectDelay
        = nextReconnectDelay timerPendingBG.reconnectDelay ∧
    (bgStep bgInit (Ev.manualReconnect true true 7)).1.reconnectDelay = 1000 :=
  ⟨reconnect_backoff_sequence.1 5,
   reconnect_backoff_sequence.2.2.1 timerPendingBG true 7 rfl rfl,
   reconnect_backoff_sequence.2.2.2.2 bgInit true 7⟩

/-! ## Claim C3 (amended): once the timeout is observed, automatic retrying
stops until a manual reconnect -/

/-- All sockets the worker ever created are fully closed. -/
def allClosed (s : BG) : Prop := ∀ st ∈ s.sockets, st = SockSt.closed

theorem socketNewCount_append (a b : Effs) :
    socketNewCount (a ++ b) = socketNewCount a + socketNewCount b := by
  unfold socketNewCount
  simp [List.filter_append]

theorem onMessageBody_frame (m : InMsg) (now : Nat) (s : BG) :
    (onMessageBody m now s).1.autoReconnectEnabled = s.autoReconnectEnabled ∧
    (onMessageBody m now s).1.sockets = s.sockets ∧
    socketNewCount (onMessageBody m now s).2 = 0 := by
  cases m with
  | badJson => exact ⟨rfl, rfl, rfl⟩
  | jnull => exact ⟨rfl, rfl, rfl⟩
  | obj status device bpm ts =>
      simp only [onMessageBody, setConnectionStateM]
      split_ifs <;> exact ⟨rfl, rfl, rfl⟩

/-- With auto-reconnect disabled and every socket closed, any event that is
not a user action leaves auto-reconnect disabled, keeps every socket closed
and constructs no socket. -/
theorem deadStep (s : BG) (e : Ev)
    (hauto : s.autoReconnectEnabled = false) (hsock : allClosed s)
    (he : autoOnlyEv e = true) :
    (bgStep s e).1.autoReconnectEnabled = false ∧ allClosed (bgStep s e).1 ∧
    socketNewCount (bgStep s e).2 = 0 := by
  cases e with
  | connectCall sc ok now => exact absurd he (by simp [autoOnlyEv])
  | manualReconnect sc ok now => exact absurd he (by simp [autoOnlyEv])
  | settingsChanged sc ok now => exact absurd he (by simp [autoOnlyEv])
  | wsOpen i now =>
      have hne : ¬ (s.sockets.get? i = some SockSt.connecting) := by
        intro hg
        have hmem : SockSt.connecting ∈ s.sockets := List.get?_mem hg
        exact absurd (hsock _ hmem) (by decide)
      simp only [bgStep]
      rw [if_neg hne]
      exact ⟨hauto, hsock, rfl⟩
  | wsClose i now =>
      rcases hg : s.sockets.get? i with _ | st
      · simp only [bgStep]
        rw [hg]
        exact ⟨hauto, hsock, rfl⟩
      · have hst : st = SockSt.closed := hsock _ (List.get?_mem hg)
        subst hst
        simp only [bgStep]
        rw [hg]
        exact ⟨hauto, hsock, rfl⟩
  | wsError i now => exact ⟨hauto, hsock, rfl⟩
  | msgArrive m now =>
      have hf := onMessageBody_frame m now s
      refine ⟨hf.1.trans hauto, ?_, hf.2.2⟩
      intro st hmem
      rw [show (bgStep s (Ev.msgArrive m now)).1.sockets = s.sockets from hf.2.1] at hmem
      exact hsock _ hmem
  | timerFire sc ok now =>
      by_cases ht : s.reconnectTimer = true
      · have hne : ¬ (sc = true ∧ s.autoReconnectEnabled = true) := by
          rintro ⟨-, h2⟩
          rw [hauto] at h2
          exact Bool.noConfusion h2
        simp only [bgStep]
        rw [if_pos ht, if_neg hne]
        exact ⟨hauto, hsock, rfl⟩
      · simp only [bgStep]
        rw [if_neg ht]
        exact ⟨hauto, hsock, rfl⟩
  | alarmFire sc ok now =>
      have hne : ¬ (s.autoReconnectEnabled = true ∧ s.wsReady ≠ some SockSt.opened) := by
        rintro ⟨h2, -⟩
        rw [hauto] at h2
        exact Bool.noConfusion h2
      simp only [bgStep]
      rw [if_neg hne]
      exact ⟨hauto, hsock, rfl⟩

/-- Runs of non-user events from a dead state construct no socket. -/
theorem deadRun (tr : List Ev) : ∀ s : BG,
    s.autoReconnectEnabled = false → allClosed s → (∀ e ∈ tr, autoOnlyEv e = true) →
    socketNewCount (bgRun s tr).2 = 0 ∧ (bgRun s tr).1.autoReconnectEnabled = false := by
  induction tr with
  | nil => intro s h1 _ _; exact ⟨rfl, h1⟩
  | cons e rest ih =>
      intro s h1 h2 h3
      have hd := deadStep s e h1 h2 (h3 e (by simp))
      have ihr := ih (bgStep s e).1 hd.1 hd.2.1 (fun x hx => h3 x (by simp [hx]))
      constructor
      · show socketNewCount ((bgStep s e).2 ++ (bgRun (bgStep s e).1 rest).2) = 0
        rw [socketNewCount_append, hd.2.2, ihr.1]
      · exact ihr.2

/-- C3 (amended): a scheduleReconnect call that observes more than 60000 ms
since the episode's first failure disables auto-reconnect and arms no timer;
from any state with auto-reconnect disabled and all sockets closed, no run of
socket callbacks, inbound messages, timer firings and alarm firings constructs
a socket or re-enables auto-reconnect; a manual reconnect resets the backoff
delay and the failure-episode clock and re-enables auto-reconnect.  (Before
the timeout is observed by scheduleReconnect, an already armed backoff timer
or the alarm can still attempt a connect past the 60000 ms mark.) -/
theorem auto_reconnect_timeout_amended :
    (∀ (s : BG) (t now : Nat), s.autoReconnectEnabled = true →
        s.reconnectStartTime = some t → RECONNECT_TIMEOUT < now - t →
        (scheduleReconnectM now s).1.autoReconnectEnabled = false ∧
        (scheduleReconnectM now s).2 = [(now, Eff.logInfo)]) ∧
    (∀ (s : BG) (tr : List Ev), s.autoReconnectEnabled = false → allClosed s →
        (∀ e ∈ tr, autoOnlyEv e = true) →
        socketNewCount (bgRun s tr).2 = 0 ∧ (bgRun s tr).1.autoReconnectEnabled = false) ∧
    (∀ (s : BG) (sc : Bool) (now : Nat),
        (bgStep s (Ev.manualReconnect sc true now)).1.reconnectDelay = 1000 ∧
        (bgStep s (Ev.manualReconnect sc true now)).1.reconnectStartTime = none ∧
        (bgStep s (Ev.manualReconnect sc true now)).1.autoReconnectEnabled = true) := by
  refine ⟨?_, ?_, manual_reconnect_resets⟩
  · intro s t now h1 hst h3
    simp [scheduleReconnectM, h1, hst, h3]
  · intro s tr h1 h2 h3
    exact deadRun tr s h1 h2 h3

/-- A worker state after the retry window was exhausted. -/
def deadBG : BG := { bgInit with autoReconnectEnabled := false }

/-- Witness for C3 (amended): a concrete late scheduleReconnect call disables
auto-reconnect; from the disabled state an alarm and a timer firing construct
nothing; a manual reconnect resets the delay. -/
theorem auto_reconnect_timeout_amended_witness :
    ((scheduleReconnectM 70000 { bgInit with reconnectStartTime := some 1000 }).1.autoReconnectEnabled
        = false ∧
     (scheduleReconnectM 70000 { bgInit with reconnectStartTime := some 1000 }).2
        = [(70000, Eff.logInfo)]) ∧
    (socketNewCount (bgRun deadBG [Ev.alarmFire true true 99999, Ev.timerFire true true 99999]).2
        = 0 ∧
     (bgRun deadBG [Ev.alarmFire true true 99999, Ev.timerFire true true 99999]).1.autoReconnectEnabled
        = false) ∧
    (bgStep deadBG (Ev.manualReconnect true true 123)).1.reconnectDelay = 1000 :=
  ⟨auto_reconnect_timeout_amended.1 { bgInit with reconnectStartTime := some 1000 } 1000 70000
      rfl rfl (by decide),
   auto_reconnect_timeout_amended.2.1 deadBG [Ev.alarmFire true true 99999, Ev.timerFire true true 99999]
      rfl (by intro st hst; exact absurd hst (List.not_mem_nil st)) (by decide),
   (auto_reconnect_timeout_amended.2.2 deadBG true 123).1⟩
